import Mathlib

/-!
Shallow embedding of the freefeed timeline read engine
(`app/controllers/api/v2/TimelinesController.js`) and of the `Comment`
model (validate / create / destroy), together with theorems checking the
natural-language specification against this code.

External collaborators (database adapter query functions, the JavaScript
`Date` constructor) are modelled as explicit function parameters; parts of
the repository referenced but not present in the sources (the Timeline
Store pagination contract, the comment fan-out of `Post.addComment`) are
modelled from the spec and marked as such in their doc comments.
-/

namespace FreeFeed

/-- Sort-order constant `ORD_UPDATED` (most-recent-activity order). -/
def ORD_UPDATED : String := "bumped"

/-- Sort-order constant `ORD_CREATED` (creation order). -/
def ORD_CREATED : String := "created"

/-- Homefeed mode constant: only friends' own posts. -/
def HOMEFEED_MODE_FRIENDS_ONLY : String := "friends-only"

/-- Homefeed mode constant: classic mode. -/
def HOMEFEED_MODE_CLASSIC : String := "classic"

/-- Homefeed mode constant: all friends' activity. -/
def HOMEFEED_MODE_FRIENDS_ALL_ACTIVITY : String := "friends-all-activity"

/-- Embedding of JavaScript `parseInt(str, 10)` applied to an optional query
value: leading whitespace is skipped, an optional sign is read, then the
longest run of decimal digits; the result is `none` exactly when JavaScript
would produce `NaN` (absent value, or no digits found). -/
def parseIntJS : Option String → Option Int
  | none => none
  | some s =>
    let cs := s.toList.dropWhile Char.isWhitespace
    let signAndRest : Int × List Char :=
      match cs with
      | '-' :: r => (-1, r)
      | '+' :: r => (1, r)
      | r => (1, r)
    let ds := signAndRest.2.takeWhile Char.isDigit
    if ds.isEmpty then none
    else some (signAndRest.1 * Int.ofNat (ds.foldl (fun a c => a * 10 + (c.toNat - 48)) 0))

/-- Embedding of JavaScript `String.prototype.toLowerCase` on the basic
latin range: each character is lower-cased. -/
def toLowerJS (s : String) : String :=
  String.mk (s.toList.map Char.toLower)

/-- Request query-string values; an absent key is `none`. The fields mirror
the keys read by `getCommonParams`: `limit`, `offset`, `sort`,
`with-my-posts`, `homefeed-mode`, `created-before`, `created-after`. -/
structure Query where
  limit : Option String
  offset : Option String
  sort : Option String
  withMyPosts : Option String
  homefeedMode : Option String
  createdBefore : Option String
  createdAfter : Option String
deriving Repr, DecidableEq

/-- The authenticated viewer as seen by `getCommonParams`
(`ctx.state.user`): id plus hidden-comment-type preferences. -/
structure ViewerUser where
  id : String
  hiddenCommentTypes : List String
deriving Repr, DecidableEq

/-- Result of `getCommonParams`: the effective common timeline parameters. -/
structure CommonParams where
  limit : Int
  offset : Int
  sort : String
  homefeedMode : String
  withMyPosts : Bool
  hiddenCommentTypes : List String
  createdBefore : Option Int
  createdAfter : Option Int
deriving Repr, DecidableEq

/-- Embedding of `getCommonParams` (TimelinesController lines 134-171).
`dateParse` models the JavaScript `Date` constructor, an external runtime
facility: it returns `none` exactly when the constructed date is invalid
(`isNaN(date)` in the source). The function is total: no query value is
ever rejected with an error. -/
def getCommonParams (viewer : Option ViewerUser) (q : Query)
    (dateParse : String → Option Int) (defaultSort : String) : CommonParams :=
  let limit : Int :=
    match parseIntJS q.limit with
    | none => 30
    | some n => if n < 0 ∨ 120 < n then 30 else n
  let offset : Int :=
    match parseIntJS q.offset with
    | none => 0
    | some n => if n < 0 then 0 else n
  let createdBefore : Option Int :=
    match q.createdBefore with
    | none => none
    | some s => dateParse s
  let createdAfter : Option Int :=
    match q.createdAfter with
    | none => none
    | some s => dateParse s
  let withMyPosts : Bool :=
    decide (toLowerJS (q.withMyPosts.getD "") ∈ (["yes", "true", "1", "on"] : List String))
  let sort : String :=
    if q.sort = some ORD_CREATED ∨ q.sort = some ORD_UPDATED then q.sort.getD defaultSort
    else defaultSort
  let homefeedMode : String :=
    match q.homefeedMode with
    | some m =>
      if m ∈ [HOMEFEED_MODE_FRIENDS_ONLY, HOMEFEED_MODE_CLASSIC,
          HOMEFEED_MODE_FRIENDS_ALL_ACTIVITY] then m
      else HOMEFEED_MODE_CLASSIC
    | none => HOMEFEED_MODE_CLASSIC
  { limit := limit, offset := offset, sort := sort, homefeedMode := homefeedMode,
    withMyPosts := withMyPosts,
    hiddenCommentTypes := match viewer with
      | some v => v.hiddenCommentTypes
      | none => [],
    createdBefore := createdBefore, createdAfter := createdAfter }

/-- A feed owner as returned by `timeline.getUser()`: id plus privacy
flags. The source stores `isPrivate` / `isProtected` as the strings
`'1'` / `'0'`; they are embedded as booleans (`'1'` is `true`). -/
structure User where
  id : String
  isPrivate : Bool
  isProtected : Bool
deriving Repr, DecidableEq

/-- A timeline record: uuid, compact integer id, feed name and owner id. -/
structure Timeline where
  id : String
  intId : Nat
  name : String
  userId : String
deriving Repr, DecidableEq

/-- Server configuration bits consulted by the controller. -/
structure Config where
  dynamicRiverOfNews : Bool
deriving Repr, DecidableEq

/-- Parameters of `genericTimeline` after merging caller params over the
defaults of lines 174-186. -/
structure GTParams where
  limit : Int
  offset : Int
  sort : String
  homefeedMode : String
  withLocalBumps : Bool
  withoutDirects : Bool
  withMyPosts : Bool
  hiddenCommentTypes : List String
  createdBefore : Option Int
  createdAfter : Option Int
deriving Repr, DecidableEq

/-- The filter arguments handed to the timeline-posts query
(line 253: `{ ...params, authorsIds, activityFeedIds, limit: params.limit + 1 }`),
except for `limit` and `offset` which the pagination model applies itself. -/
structure FetchFilters where
  sort : String
  homefeedMode : String
  withLocalBumps : Bool
  withoutDirects : Bool
  withMyPosts : Bool
  hiddenCommentTypes : List String
  createdBefore : Option Int
  createdAfter : Option Int
  authorsIds : List (Option String)
  activityFeedIds : List Nat
deriving Repr, DecidableEq

/-- The per-post data returned by `getPostsWithStuffByIds` that the
embedded serialization consumes: the post's current feed int ids
(used for the `isHidden` flag). -/
structure PostStuff where
  feedIntIds : List Nat
deriving Repr, DecidableEq

/-- The database adapter, modelled as a bundle of pure query functions plus
the ban-edge relation. Each field mirrors one `dbAdapter` method used by
the controller; `timelinePosts` and `bestPosts` give the *full* ordered
result lists, over which the pagination contract (spec §4.1) is applied. -/
structure Db where
  getUser : String → User
  getUserSubscribersIds : String → List String
  bans : List (String × String)
  getCommentsTimelineIntId : String → Nat
  getLikesTimelineIntId : String → Nat
  subscriptionDestinations : Option String → List Nat
  subscriptionActivities : Option String → List Nat
  getUserFriendIds : Option String → List String
  getHidesFeedIntId : String → Nat
  timelinePosts : String → List Nat → Option String → FetchFilters → List String
  getTimelineSubscribersIds : String → List String
  getPostStuff : String → PostStuff
  bestPosts : Option ViewerUser → List String

/-- Modelled from the spec: `dbAdapter.getUsersBansOrWasBannedBy` is not in
the sources; per §4.2 the ban check is symmetric (`isBanned(a, b)` is true
if either direction holds), so the function returns every user having a ban
edge with `u` in either direction. -/
def getUsersBansOrWasBannedBy (bans : List (String × String)) (u : String) : List String :=
  bans.filterMap fun p =>
    if p.1 = u then some p.2
    else if p.2 = u then some p.1
    else none

/-- The viewer access check of `genericTimeline` for Posts/Comments/Likes
feeds (lines 218-233): anonymous viewers see only unprotected owners; a
non-owner viewer must be a subscriber when the owner is private, and must
not be in a ban relation with the owner. -/
def canViewCheck (db : Db) (owner : User) (viewerId : Option String) : Bool :=
  match viewerId with
  | none => !owner.isProtected
  | some v =>
    if v = owner.id then true
    else
      let cv : Bool :=
        if owner.isPrivate then decide (v ∈ db.getUserSubscribersIds owner.id) else true
      if cv then !(decide (owner.id ∈ getUsersBansOrWasBannedBy db.bans v)) else false

/-- Parameter normalization of lines 188-189: `withLocalBumps` requires a
viewer and bumped order; `withMyPosts` only has effect on MyDiscussions. -/
def gtNormalize (timeline : Timeline) (viewerId : Option String) (p : GTParams) : GTParams :=
  { p with
    withLocalBumps := p.withLocalBumps && viewerId.isSome && decide (p.sort = ORD_UPDATED),
    withMyPosts := p.withMyPosts && decide (timeline.name = "MyDiscussions") }

/-- The resolved source-timeline set of a read: source timeline int ids,
activity feed ids, author allow-list, and the outcome of the access check. -/
structure Sources where
  timelineIds : List Nat
  activityFeedIds : List Nat
  authorsIds : List (Option String)
  canViewUser : Bool
deriving Repr, DecidableEq

/-- Source resolution and access check of `genericTimeline`
(lines 200-250), for parameters already normalized by `gtNormalize`:
MyDiscussions reads the owner's Comments and Likes source feeds;
Posts/Comments/Likes feeds get the `canViewCheck`; a dynamic RiverOfNews
expands the viewer's subscriptions according to the homefeed mode. -/
def gtResolve (cfg : Config) (db : Db) (timeline : Timeline) (viewerId : Option String)
    (p : GTParams) : Sources :=
  let authorsIds0 : List (Option String) := if p.withMyPosts then [viewerId] else []
  let owner := db.getUser timeline.userId
  if timeline.name = "MyDiscussions" then
    { timelineIds := [db.getCommentsTimelineIntId owner.id, db.getLikesTimelineIntId owner.id],
      activityFeedIds := [], authorsIds := authorsIds0, canViewUser := true }
  else if timeline.name = "Posts" ∨ timeline.name = "Comments" ∨ timeline.name = "Likes" then
    { timelineIds := [timeline.intId], activityFeedIds := [], authorsIds := authorsIds0,
      canViewUser := canViewCheck db owner viewerId }
  else if timeline.name = "RiverOfNews" ∧ cfg.dynamicRiverOfNews = true then
    let dest := db.subscriptionDestinations viewerId
    if p.homefeedMode = HOMEFEED_MODE_FRIENDS_ALL_ACTIVITY then
      let authors1 := authorsIds0 ++ (db.getUserFriendIds viewerId).map (fun u => some u)
      let authors2 := if viewerId ∈ authors1 then authors1 else authors1 ++ [viewerId]
      { timelineIds := dest ++ db.subscriptionActivities viewerId, activityFeedIds := [],
        authorsIds := authors2, canViewUser := true }
    else if p.homefeedMode = HOMEFEED_MODE_CLASSIC then
      { timelineIds := dest, activityFeedIds := db.subscriptionActivities viewerId,
        authorsIds := authorsIds0, canViewUser := true }
    else
      { timelineIds := dest, activityFeedIds := [], authorsIds := authorsIds0,
        canViewUser := true }
  else
    { timelineIds := [timeline.intId], activityFeedIds := [], authorsIds := authorsIds0,
      canViewUser := true }

/-- The filter record passed to the timeline-posts query (line 253). -/
def gtFilters (p : GTParams) (s : Sources) : FetchFilters :=
  { sort := p.sort, homefeedMode := p.homefeedMode, withLocalBumps := p.withLocalBumps,
    withoutDirects := p.withoutDirects, withMyPosts := p.withMyPosts,
    hiddenCommentTypes := p.hiddenCommentTypes, createdBefore := p.createdBefore,
    createdAfter := p.createdAfter, authorsIds := s.authorsIds,
    activityFeedIds := s.activityFeedIds }

/-- Modelled from the spec: `dbAdapter.getTimelinePostsIds` is not in the
sources; per the Timeline Store contract (§4.1, `getMembership`) it supports
offset/limit pagination over the merged ordered post-id list, so it returns
at most `limit` ids after skipping `offset` of the full ordered result. -/
def getTimelinePostsIds (db : Db) (name : String) (tids : List Nat)
    (viewerId : Option String) (filters : FetchFilters) (limit offset : Int) : List String :=
  ((db.timelinePosts name tids viewerId filters).drop offset.toNat).take limit.toNat

/-- The full (unpaginated, post-offset) id list a read draws from: empty
when the access check failed (lines 252-254). -/
def gtUnderlyingIds (cfg : Config) (db : Db) (timeline : Timeline) (viewerId : Option String)
    (p0 : GTParams) : List String :=
  let p := gtNormalize timeline viewerId p0
  let s := gtResolve cfg db timeline viewerId p
  if s.canViewUser then
    (db.timelinePosts timeline.name s.timelineIds viewerId (gtFilters p s)).drop p.offset.toNat
  else []

/-- A serialized post as far as the claims observe it: id and hidden flag. -/
structure SerializedPost where
  id : String
  isHidden : Bool
deriving Repr, DecidableEq

/-- The `timelines` section of a feed response (lines 291-296). -/
structure TimelinesMeta where
  id : String
  name : String
  user : String
  posts : List String
  subscribers : List String
deriving Repr, DecidableEq

/-- A feed response, restricted to the parts the claims observe. -/
structure FeedResult where
  timelines : TimelinesMeta
  isLastPage : Bool
  posts : List SerializedPost
deriving Repr, DecidableEq

/-- Body of `genericTimeline` after parameter normalization: fetch
`limit + 1` ids (or none when access is denied), compute `isLastPage`,
truncate to `limit`, serialize, and attach the timeline identity metadata. -/
def gtMain (cfg : Config) (db : Db) (timeline : Timeline) (viewerId : Option String)
    (p : GTParams) : FeedResult :=
  let s := gtResolve cfg db timeline viewerId p
  let hidesFeedId : Nat :=
    match viewerId with
    | some v => db.getHidesFeedIntId v
    | none => 0
  let postsIds0 : List String :=
    if s.canViewUser then
      getTimelinePostsIds db timeline.name s.timelineIds viewerId (gtFilters p s)
        (p.limit + 1) p.offset
    else []
  let isLastPage : Bool := decide ((postsIds0.length : Int) ≤ p.limit)
  let postsIds := if isLastPage then postsIds0 else postsIds0.take p.limit.toNat
  { timelines :=
      { id := timeline.id, name := timeline.name, user := timeline.userId,
        posts := postsIds,
        subscribers := if s.canViewUser then db.getTimelineSubscribersIds timeline.id else [] },
    isLastPage := isLastPage,
    posts := postsIds.map fun pid =>
      { id := pid, isHidden := decide (hidesFeedId ∈ (db.getPostStuff pid).feedIntIds) } }

/-- Embedding of `genericTimeline` (lines 173-332). The function is total:
every read produces a `FeedResult`; there is no error path. -/
def genericTimeline (cfg : Config) (db : Db) (timeline : Timeline) (viewerId : Option String)
    (p0 : GTParams) : FeedResult :=
  gtMain cfg db timeline viewerId (gtNormalize timeline viewerId p0)

/-- The effective limit of `bestOf` (line 48): `parseInt(...) || 30`, so a
failed parse and an explicit `0` both fall back to 30. -/
def bestOfLimit (q : Query) : Int :=
  match parseIntJS q.limit with
  | none => 30
  | some n => if n = 0 then 30 else n

/-- The effective offset of `bestOf` (line 47): `parseInt(...) || 0`. -/
def bestOfOffset (q : Query) : Int :=
  (parseIntJS q.offset).getD 0

/-- A `bestOf` response, restricted to the parts the claims observe. -/
structure BestOfResult where
  posts : List String
  isLastPage : Bool
deriving Repr, DecidableEq

/-- Embedding of `bestOf` (lines 41-62): fetch `limit + 1` best posts,
compute `isLastPage`, truncate to `limit`. The `dbAdapter.bestPosts`
pagination (offset plus at most `limit + 1` records) is modelled from the
spec's Timeline Store contract over the full ordered result `db.bestPosts`. -/
def bestOf (db : Db) (user : Option ViewerUser) (q : Query) : BestOfResult :=
  let offset := bestOfOffset q
  let limit := bestOfLimit q
  let foundPosts := ((db.bestPosts user).drop offset.toNat).take (limit + 1).toNat
  let isLastPage : Bool := decide ((foundPosts.length : Int) ≤ limit)
  { posts := if isLastPage then foundPosts else foundPosts.take limit.toNat,
    isLastPage := isLastPage }

/-- Constructor parameters of the `Comment` model; any field may be absent. -/
structure CommentParams where
  id : Option String
  body : Option String
  userId : Option String
  postId : Option String
deriving Repr, DecidableEq

/-- Embedding of JavaScript `String.prototype.trim`: whitespace is removed
from both ends of the string. -/
def trimJS (s : String) : String :=
  String.mk (((s.toList.dropWhile Char.isWhitespace).reverse.dropWhile
    Char.isWhitespace).reverse)

/-- The `body` property setter of the `Comment` model (lines 367-372 of the
model file): a falsy value (absent or empty string) stores `''`, a truthy
string is stored trimmed. -/
def setBody : Option String → String
  | none => ""
  | some s => if s = "" then "" else trimJS s

/-- A `Comment` model instance as relevant to validation and creation. -/
structure Comment where
  id : Option String
  body : String
  userId : Option String
  postId : Option String
  createdAt : Option Nat
  updatedAt : Option Nat
deriving Repr, DecidableEq

/-- The `Comment` constructor: assigning `params.body` goes through the
`body` setter; `userId` and `postId` are stored as given. -/
def Comment.make (ps : CommentParams) : Comment :=
  { id := ps.id, body := setBody ps.body, userId := ps.userId, postId := ps.postId,
    createdAt := none, updatedAt := none }

/-- Truthiness-and-nonempty test `x && x.length > 0` on an optional string. -/
def truthyNonEmptyStr : Option String → Bool
  | none => false
  | some s => decide (0 < s.length)

/-- Embedding of `Comment.prototype.validate`: the comment is valid when
its body, userId and postId are all present and non-empty; otherwise the
error `"Invalid"` is thrown. -/
def Comment.validate (c : Comment) : Except String Comment :=
  if decide (0 < c.body.length) && truthyNonEmptyStr c.userId && truthyNonEmptyStr c.postId then
    Except.ok c
  else Except.error "Invalid"

/-- A persistence or fan-out side effect of `Comment.prototype.create`, in
program order: the database write of the comment record, the fan-out into
timelines via `post.addComment`, and the stats counter increment. -/
inductive CreateEffect where
  | dbCreateComment (body : String) (userId : Option String) (postId : Option String)
  | postAddComment (postId : Option String) (commentId : String)
  | statsAddComment (userId : Option String)
deriving Repr, DecidableEq

/-- Outcome of `Comment.prototype.create`: the list of persistence /
fan-out effects that were performed, and the result or thrown error. -/
structure CreateOutcome where
  effects : List CreateEffect
  result : Except String Comment
deriving Repr

/-- Embedding of `Comment.prototype.create` (model file lines 388-411):
timestamps are assigned locally, then `validate` runs; a validation failure
throws before any persistence write or fan-out effect. On success the
comment row is created (obtaining `newId`), the post fan-out runs and the
stats counter is incremented. -/
def Comment.create (c0 : Comment) (now : Nat) (newId : String) : CreateOutcome :=
  let c := { c0 with createdAt := some now, updatedAt := some now }
  match c.validate with
  | Except.error e => { effects := [], result := Except.error e }
  | Except.ok _ =>
    { effects :=
        [CreateEffect.dbCreateComment c.body c.userId c.postId,
         CreateEffect.postAddComment c.postId newId,
         CreateEffect.statsAddComment c.userId],
      result := Except.ok { c with id := some newId } }

/-- A persisted comment row of a post, as consulted by
`Comment.prototype.destroy`: comment id and author id. -/
structure PostCommentRow where
  id : String
  userId : String
deriving Repr, DecidableEq

/-- The state `Comment.prototype.destroy` reads and writes for one post and
one comment author: the post's comment rows, and the author's Comments
timeline as a list of member post ids. -/
structure CommentWorld where
  postComments : List PostCommentRow
  commentsTimeline : List String
deriving Repr, DecidableEq

/-- Modelled from the spec: the fan-out of `Post.addComment` (§4.3, "the
post gains membership in the commenter's Comments timeline") combined with
the idempotent `addPostToTimeline` of §4.1 — the comment row is appended
and the post id is added to the commenter's Comments timeline unless
already a member. -/
def addCommentFanout (w : CommentWorld) (c : PostCommentRow) (postId : String) : CommentWorld :=
  { postComments := w.postComments ++ [c],
    commentsTimeline :=
      if postId ∈ w.commentsTimeline then w.commentsTimeline
      else w.commentsTimeline ++ [postId] }

/-- Embedding of `Comment.prototype.destroy` (model file lines 434-459):
the comment row is deleted; then, if the post still has a comment from the
same author, the timeline is left untouched (early return), otherwise the
post is removed from the author's Comments timeline. The returned boolean
records whether the timeline membership was retracted. -/
def destroyComment (w : CommentWorld) (cid uid postId : String) : CommentWorld × Bool :=
  let remaining := w.postComments.filter fun x => x.id ≠ cid
  if remaining.any fun x => x.userId = uid then
    ({ w with postComments := remaining }, false)
  else
    ({ postComments := remaining,
       commentsTimeline := w.commentsTimeline.filter fun p => p ≠ postId }, true)

section Lemmas

/-- For a Posts/Comments/Likes feed, the resolved access flag is exactly
the `canViewCheck` of the feed owner against the viewer. -/
lemma gtResolve_canView_of_pcl (cfg : Config) (db : Db) (tl : Timeline)
    (v : Option String) (p : GTParams)
    (hname : tl.name = "Posts" ∨ tl.name = "Comments" ∨ tl.name = "Likes") :
    (gtResolve cfg db tl v p).canViewUser = canViewCheck db (db.getUser tl.userId) v := by
  have hnd : ¬tl.name = "MyDiscussions" := by
    rcases hname with h | h | h <;> simp [h]
  simp [gtResolve, hnd, hname]

/-- When the access check failed, the feed result has no posts and no
subscribers, while the timeline identity metadata is still that of the
requested feed. -/
lemma gtMain_denied (cfg : Config) (db : Db) (tl : Timeline) (v : Option String)
    (p : GTParams) (hcv : (gtResolve cfg db tl v p).canViewUser = false) :
    (gtMain cfg db tl v p).posts = []
    ∧ (gtMain cfg db tl v p).timelines.posts = []
    ∧ (gtMain cfg db tl v p).timelines.subscribers = [] := by
  simp [gtMain, hcv]

/-- Membership in the modelled symmetric ban list, from a ban edge in
either direction. -/
lemma mem_bansOrWasBannedBy {bans : List (String × String)} {a b : String}
    (hab : a ≠ b) (h : (a, b) ∈ bans ∨ (b, a) ∈ bans) :
    b ∈ getUsersBansOrWasBannedBy bans a := by
  unfold getUsersBansOrWasBannedBy
  rcases h with h | h
  · exact List.mem_filterMap.mpr ⟨(a, b), h, by simp⟩
  · exact List.mem_filterMap.mpr ⟨(b, a), h, by simp [Ne.symm hab]⟩

/-- A ban relation between a non-owner viewer and the owner makes the
access check fail, whatever the subscription state. -/
lemma canViewCheck_ban {db : Db} {owner : User} {a : String}
    (hao : ¬a = owner.id)
    (hmem : owner.id ∈ getUsersBansOrWasBannedBy db.bans a) :
    canViewCheck db owner (some a) = false := by
  simp [canViewCheck, hao, hmem]

end Lemmas

section Fixtures

/-- Concrete database fixture for the witnesses. -/
def dbW : Db :=
  { getUser := fun uid => { id := uid, isPrivate := false, isProtected := true },
    getUserSubscribersIds := fun _ => [],
    bans := [("mars", "luna")],
    getCommentsTimelineIntId := fun _ => 10,
    getLikesTimelineIntId := fun _ => 11,
    subscriptionDestinations := fun _ => [],
    subscriptionActivities := fun _ => [],
    getUserFriendIds := fun _ => [],
    getHidesFeedIntId := fun _ => 99,
    timelinePosts := fun _ _ _ _ => ["p1", "p2", "p3"],
    getTimelineSubscribersIds := fun _ => [],
    getPostStuff := fun _ => { feedIntIds := [] },
    bestPosts := fun _ => ["b1", "b2"] }

/-- Concrete configuration fixture for the witnesses. -/
def cfgW : Config := { dynamicRiverOfNews := false }

/-- Luna's Posts timeline fixture. -/
def tlLunaPosts : Timeline :=
  { id := "tl-posts-luna", intId := 1, name := "Posts", userId := "luna" }

/-- Mars's Comments timeline fixture. -/
def tlMarsComments : Timeline :=
  { id := "tl-comments-mars", intId := 2, name := "Comments", userId := "mars" }

/-- Default generic-timeline parameter fixture. -/
def pW : GTParams :=
  { limit := 30, offset := 0, sort := "bumped", homefeedMode := "classic",
    withLocalBumps := false, withoutDirects := false, withMyPosts := false,
    hiddenCommentTypes := [], createdBefore := none, createdAfter := none }

end Fixtures

/-- C1: a read of a Posts/Comments/Likes feed whose viewer fails the
`canView` check yields an empty post list while the `timelines` metadata
(id, name, owner) is that of the requested feed; since `genericTimeline`
is a total function into `FeedResult`, no error is raised. -/
theorem c1_denied_read_keeps_metadata (cfg : Config) (db : Db) (tl : Timeline)
    (v : Option String) (p : GTParams)
    (hname : tl.name = "Posts" ∨ tl.name = "Comments" ∨ tl.name = "Likes")
    (hcv : canViewCheck db (db.getUser tl.userId) v = false) :
    (genericTimeline cfg db tl v p).posts = []
    ∧ (genericTimeline cfg db tl v p).timelines.posts = []
    ∧ (genericTimeline cfg db tl v p).timelines.id = tl.id
    ∧ (genericTimeline cfg db tl v p).timelines.name = tl.name
    ∧ (genericTimeline cfg db tl v p).timelines.user = tl.userId := by
  have h := gtResolve_canView_of_pcl cfg db tl v (gtNormalize tl v p) hname
  have hd := gtMain_denied cfg db tl v (gtNormalize tl v p) (h.trans hcv)
  exact ⟨hd.1, hd.2.1, rfl, rfl, rfl⟩

/-- C1 witness: anonymous read of protected Luna's Posts feed. -/
theorem c1_witness :
    canViewCheck dbW (dbW.getUser tlLunaPosts.userId) none = false
    ∧ ((genericTimeline cfgW dbW tlLunaPosts none pW).posts = []
      ∧ (genericTimeline cfgW dbW tlLunaPosts none pW).timelines.posts = []
      ∧ (genericTimeline cfgW dbW tlLunaPosts none pW).timelines.id = tlLunaPosts.id
      ∧ (genericTimeline cfgW dbW tlLunaPosts none pW).timelines.name = tlLunaPosts.name
      ∧ (genericTimeline cfgW dbW tlLunaPosts none pW).timelines.user = tlLunaPosts.userId) :=
  ⟨by decide,
   c1_denied_read_keeps_metadata cfgW dbW tlLunaPosts none pW (Or.inl rfl) (by decide)⟩

/-- C2: a ban relation in either direction between distinct users `a` and
`b` makes a read of the other's Posts/Comments/Likes feed return an empty
post list, whatever the subscription state, in both directions. -/
theorem c2_ban_blocks_feed_read (cfg : Config) (db : Db) (a b : String)
    (tlA tlB : Timeline) (p : GTParams)
    (hab : a ≠ b)
    (hban : (a, b) ∈ db.bans ∨ (b, a) ∈ db.bans)
    (hBo : tlB.userId = b) (hBg : (db.getUser b).id = b)
    (hBn : tlB.name = "Posts" ∨ tlB.name = "Comments" ∨ tlB.name = "Likes")
    (hAo : tlA.userId = a) (hAg : (db.getUser a).id = a)
    (hAn : tlA.name = "Posts" ∨ tlA.name = "Comments" ∨ tlA.name = "Likes") :
    (genericTimeline cfg db tlB (some a) p).posts = []
    ∧ (genericTimeline cfg db tlB (some a) p).timelines.posts = []
    ∧ (genericTimeline cfg db tlA (some b) p).posts = []
    ∧ (genericTimeline cfg db tlA (some b) p).timelines.posts = [] := by
  have hcvB : canViewCheck db (db.getUser tlB.userId) (some a) = false := by
    rw [hBo]
    refine canViewCheck_ban ?_ ?_
    · rw [hBg]; exact hab
    · rw [hBg]; exact mem_bansOrWasBannedBy hab hban
  have hcvA : canViewCheck db (db.getUser tlA.userId) (some b) = false := by
    rw [hAo]
    refine canViewCheck_ban ?_ ?_
    · rw [hAg]; exact Ne.symm hab
    · rw [hAg]; exact mem_bansOrWasBannedBy (Ne.symm hab) (Or.symm hban)
  have hB := gtMain_denied cfg db tlB (some a) (gtNormalize tlB (some a) p)
    ((gtResolve_canView_of_pcl cfg db tlB (some a) _ hBn).trans hcvB)
  have hA := gtMain_denied cfg db tlA (some b) (gtNormalize tlA (some b) p)
    ((gtResolve_canView_of_pcl cfg db tlA (some b) _ hAn).trans hcvA)
  exact ⟨hB.1, hB.2.1, hA.1, hA.2.1⟩

/-- C2 witness: Mars banned Luna; each one's feed is empty for the other. -/
theorem c2_witness :
    ("mars", "luna") ∈ dbW.bans
    ∧ ((genericTimeline cfgW dbW tlLunaPosts (some "mars") pW).posts = []
      ∧ (genericTimeline cfgW dbW tlLunaPosts (some "mars") pW).timelines.posts = []
      ∧ (genericTimeline cfgW dbW tlMarsComments (some "luna") pW).posts = []
      ∧ (genericTimeline cfgW dbW tlMarsComments (some "luna") pW).timelines.posts = []) :=
  ⟨by decide,
   c2_ban_blocks_feed_read cfgW dbW "mars" "luna" tlMarsComments tlLunaPosts pW
     (by decide) (Or.inl (by decide)) rfl (by decide) (Or.inl rfl) rfl (by decide)
     (Or.inr (Or.inl rfl))⟩

/-- C6: for an anonymous viewer of a Posts/Comments/Likes feed, the access
check evaluates, for every owner, to the negation of the owner's protected
flag — true exactly when the owner is not protected — and when the owner is
protected the returned post list is empty. -/
theorem c6_anonymous_protected_owner (cfg : Config) (db : Db) (tl : Timeline)
    (p : GTParams)
    (hname : tl.name = "Posts" ∨ tl.name = "Comments" ∨ tl.name = "Likes") :
    canViewCheck db (db.getUser tl.userId) none = !(db.getUser tl.userId).isProtected
    ∧ ((db.getUser tl.userId).isProtected = true →
        (genericTimeline cfg db tl none p).posts = []
        ∧ (genericTimeline cfg db tl none p).timelines.posts = []) := by
  refine ⟨rfl, fun hprot => ?_⟩
  have hcv : canViewCheck db (db.getUser tl.userId) none = false := by
    simp [canViewCheck, hprot]
  have hd := gtMain_denied cfg db tl none (gtNormalize tl none p)
    ((gtResolve_canView_of_pcl cfg db tl none _ hname).trans hcv)
  exact ⟨hd.1, hd.2.1⟩

/-- Database fixture with an unprotected, public owner, for the allow
direction of the C6 witness. -/
def dbOpenW : Db :=
  { dbW with getUser := fun uid => { id := uid, isPrivate := false, isProtected := false } }

/-- C6 witness: anonymous read of a protected owner's Comments feed is
empty, and the anonymous access check passes on an unprotected owner. -/
theorem c6_witness :
    ((dbW.getUser tlMarsComments.userId).isProtected = true
      ∧ (genericTimeline cfgW dbW tlMarsComments none pW).posts = []
      ∧ (genericTimeline cfgW dbW tlMarsComments none pW).timelines.posts = [])
    ∧ canViewCheck dbOpenW (dbOpenW.getUser tlLunaPosts.userId) none = true :=
  ⟨⟨rfl,
    (c6_anonymous_protected_owner cfgW dbW tlMarsComments pW (Or.inr (Or.inl rfl))).2 rfl⟩,
   ((c6_anonymous_protected_owner cfgW dbOpenW tlLunaPosts pW (Or.inl rfl)).1).trans
     (by decide)⟩

section PaginationLemmas

/-- The fetch-one-extra trick: the extra record fits under `limit` exactly
when the whole underlying result does. -/
lemma page_isLast_iff (u : List String) (L : Int) (hL : 0 ≤ L) :
    decide (((u.take (L + 1).toNat).length : Int) ≤ L) = true ↔ (u.length : Int) ≤ L := by
  simp only [decide_eq_true_eq, List.length_take]
  omega

/-- Truncating the `limit + 1` fetch to `limit` yields the first `limit`
records of the underlying result, in both the last-page and the
more-pages case. -/
lemma page_ids_eq (u : List String) (L : Int) (hL : 0 ≤ L) :
    (if decide (((u.take (L + 1).toNat).length : Int) ≤ L) = true
     then u.take (L + 1).toNat else (u.take (L + 1).toNat).take L.toNat)
    = u.take L.toNat := by
  by_cases h : (u.length : Int) ≤ L
  · rw [if_pos ((page_isLast_iff u L hL).mpr h)]
    rw [List.take_of_length_le (by omega), List.take_of_length_le (by omega)]
  · rw [if_neg (fun hc => h ((page_isLast_iff u L hL).mp hc))]
    rw [List.take_take]
    congr 1
    omega

/-- A `limit`-truncated list has at most `limit` elements. -/
lemma page_len_le (u : List String) (L : Int) (hL : 0 ≤ L) :
    ((u.take L.toNat).length : Int) ≤ L := by
  simp only [List.length_take]
  omega

/-- Normalization keeps the limit unchanged. -/
lemma gtNormalize_limit (tl : Timeline) (v : Option String) (p : GTParams) :
    (gtNormalize tl v p).limit = p.limit := rfl

/-- Normalization keeps the offset unchanged. -/
lemma gtNormalize_offset (tl : Timeline) (v : Option String) (p : GTParams) :
    (gtNormalize tl v p).offset = p.offset := rfl

/-- The observable pagination shape of `genericTimeline`: `isLastPage` and
the returned id list are those of the fetch-extra-then-truncate scheme over
the underlying id list. -/
lemma genericTimeline_page (cfg : Config) (db : Db) (tl : Timeline) (v : Option String)
    (p : GTParams) :
    (genericTimeline cfg db tl v p).isLastPage
      = decide ((((gtUnderlyingIds cfg db tl v p).take (p.limit + 1).toNat).length : Int)
          ≤ p.limit)
    ∧ (genericTimeline cfg db tl v p).timelines.posts
      = (if decide ((((gtUnderlyingIds cfg db tl v p).take (p.limit + 1).toNat).length : Int)
            ≤ p.limit) = true
         then (gtUnderlyingIds cfg db tl v p).take (p.limit + 1).toNat
         else ((gtUnderlyingIds cfg db tl v p).take (p.limit + 1).toNat).take p.limit.toNat)
    ∧ (genericTimeline cfg db tl v p).posts.length
      = (genericTimeline cfg db tl v p).timelines.posts.length := by
  cases hcv : (gtResolve cfg db tl v (gtNormalize tl v p)).canViewUser <;>
    simp [genericTimeline, gtMain, gtUnderlyingIds, getTimelinePostsIds, hcv,
      gtNormalize_limit, gtNormalize_offset]

/-- The observable pagination shape of `bestOf`. -/
lemma bestOf_page (db : Db) (usr : Option ViewerUser) (q : Query) :
    (bestOf db usr q).isLastPage
      = decide (((((db.bestPosts usr).drop (bestOfOffset q).toNat).take
          (bestOfLimit q + 1).toNat).length : Int) ≤ bestOfLimit q)
    ∧ (bestOf db usr q).posts
      = (if decide (((((db.bestPosts usr).drop (bestOfOffset q).toNat).take
            (bestOfLimit q + 1).toNat).length : Int) ≤ bestOfLimit q) = true
         then ((db.bestPosts usr).drop (bestOfOffset q).toNat).take (bestOfLimit q + 1).toNat
         else (((db.bestPosts usr).drop (bestOfOffset q).toNat).take
            (bestOfLimit q + 1).toNat).take (bestOfLimit q).toNat) := by
  constructor <;> simp [bestOf]

end PaginationLemmas

/-- C3: a feed read with effective limit `L` fetches `L + 1` records and
truncates to `L`: when the underlying result (after access check and
offset) has at least `L + 1` records, `isLastPage` is false; when it has at
most `L` records, `isLastPage` is true; at most `L` posts are returned in
either case, and the returned ids are the first `L` of the underlying
result. The same law holds for the `bestOf` engine. -/
theorem c3_fetch_extra_pagination (cfg : Config) (db : Db) (tl : Timeline)
    (v : Option String) (p : GTParams) (hL : 0 ≤ p.limit) :
    (((gtUnderlyingIds cfg db tl v p).length : Int) ≥ p.limit + 1 →
      (genericTimeline cfg db tl v p).isLastPage = false)
    ∧ (((gtUnderlyingIds cfg db tl v p).length : Int) ≤ p.limit →
      (genericTimeline cfg db tl v p).isLastPage = true)
    ∧ ((genericTimeline cfg db tl v p).posts.length : Int) ≤ p.limit
    ∧ ((genericTimeline cfg db tl v p).timelines.posts.length : Int) ≤ p.limit
    ∧ (genericTimeline cfg db tl v p).timelines.posts
        = (gtUnderlyingIds cfg db tl v p).take p.limit.toNat
    ∧ (∀ (usr : Option ViewerUser) (q : Query), 0 ≤ bestOfLimit q →
        ((((db.bestPosts usr).drop (bestOfOffset q).toNat).length : Int) ≥ bestOfLimit q + 1 →
          (bestOf db usr q).isLastPage = false)
        ∧ ((((db.bestPosts usr).drop (bestOfOffset q).toNat).length : Int) ≤ bestOfLimit q →
          (bestOf db usr q).isLastPage = true)
        ∧ ((bestOf db usr q).posts.length : Int) ≤ bestOfLimit q) := by
  obtain ⟨h1, h2, h3⟩ := genericTimeline_page cfg db tl v p
  have hids : (genericTimeline cfg db tl v p).timelines.posts
      = (gtUnderlyingIds cfg db tl v p).take p.limit.toNat := by
    rw [h2, page_ids_eq _ _ hL]
  refine ⟨?_, ?_, ?_, ?_, hids, ?_⟩
  · intro hn
    rw [h1, ← Bool.not_eq_true, page_isLast_iff _ _ hL]
    omega
  · intro hn
    rw [h1, page_isLast_iff _ _ hL]
    exact hn
  · rw [h3, hids]
    exact page_len_le _ _ hL
  · rw [hids]
    exact page_len_le _ _ hL
  · intro usr q hLb
    obtain ⟨b1, b2⟩ := bestOf_page db usr q
    have hbids : (bestOf db usr q).posts
        = ((db.bestPosts usr).drop (bestOfOffset q).toNat).take (bestOfLimit q).toNat := by
      rw [b2, page_ids_eq _ _ hLb]
    refine ⟨?_, ?_, ?_⟩
    · intro hn
      rw [b1, ← Bool.not_eq_true, page_isLast_iff _ _ hLb]
      omega
    · intro hn
      rw [b1, page_isLast_iff _ _ hLb]
      exact hn
    · rw [hbids]
      exact page_len_le _ _ hLb

/-- C3 witness: Luna reading her own Posts feed over a 3-post store with
limit 30 gets a last page, and at most 30 posts. -/
theorem c3_witness :
    (0 : Int) ≤ pW.limit
    ∧ ((gtUnderlyingIds cfgW dbW tlLunaPosts (some "luna") pW).length : Int) ≤ pW.limit
    ∧ (genericTimeline cfgW dbW tlLunaPosts (some "luna") pW).isLastPage = true :=
  ⟨by decide, by decide,
   (c3_fetch_extra_pagination cfgW dbW tlLunaPosts (some "luna") pW (by decide)).2.1
     (by decide)⟩

/-- C4: creating a comment by user `U` on post `P` (fan-out appends the
row and idempotently adds `P` to `U`'s Comments timeline) and then
destroying that comment restores the post's comment list; the timeline
membership is actively retracted exactly when `U` has no other comment
remaining on `P`; `P`'s membership in `U`'s Comments timeline returns to
its pre-comment state (given the invariant that membership reflects the
presence of a comment of `U` on `P`); and when another comment of `U`
remains, the destroy leaves the timeline untouched. -/
theorem c4_comment_destroy_roundtrip (w : CommentWorld) (c : PostCommentRow) (postId : String)
    (hfresh : ∀ x ∈ w.postComments, x.id ≠ c.id)
    (hinv : postId ∈ w.commentsTimeline ↔ ∃ x ∈ w.postComments, x.userId = c.userId) :
    (destroyComment (addCommentFanout w c postId) c.id c.userId postId).1.postComments
      = w.postComments
    ∧ ((destroyComment (addCommentFanout w c postId) c.id c.userId postId).2 = true
        ↔ ¬∃ x ∈ w.postComments, x.userId = c.userId)
    ∧ ((postId ∈
          (destroyComment (addCommentFanout w c postId) c.id c.userId postId).1.commentsTimeline)
        ↔ postId ∈ w.commentsTimeline)
    ∧ ((∃ x ∈ w.postComments, x.userId = c.userId) →
        (destroyComment (addCommentFanout w c postId) c.id c.userId postId).1.commentsTimeline
          = (addCommentFanout w c postId).commentsTimeline) := by
  have hrem : List.filter (fun x => !decide (x.id = c.id)) w.postComments
      = w.postComments := by
    rw [List.filter_eq_self]
    intro x hx
    simp [hfresh x hx]
  by_cases hex : ∃ x ∈ w.postComments, x.userId = c.userId
  · have hcond : ∃ x ∈ w.postComments, ¬x.id = c.id ∧ x.userId = c.userId := by
      obtain ⟨x, hx, hu⟩ := hex
      exact ⟨x, hx, hfresh x hx, hu⟩
    have hmem : postId ∈ w.commentsTimeline := hinv.mpr hex
    refine ⟨?_, ?_, ?_, ?_⟩ <;>
      simp [destroyComment, addCommentFanout, hcond, hrem, hex, hmem]
  · have hcond : ¬∃ x ∈ w.postComments, ¬x.id = c.id ∧ x.userId = c.userId := by
      rintro ⟨x, hx, _, hu⟩
      exact hex ⟨x, hx, hu⟩
    have h0 : postId ∉ w.commentsTimeline := fun hm => hex (hinv.mp hm)
    refine ⟨?_, ?_, ?_, ?_⟩ <;>
      simp [destroyComment, addCommentFanout, hcond, hrem, hex, h0]

/-- World fixture for the C4 witness: no comments, empty timeline. -/
def cwW : CommentWorld := { postComments := [], commentsTimeline := [] }

/-- Comment-row fixture for the C4 witness. -/
def rowW : PostCommentRow := { id := "c1", userId := "luna" }

/-- C4 witness: on an empty world, create-then-destroy retracts the
membership and restores the pre-comment state. -/
theorem c4_witness :
    (destroyComment (addCommentFanout cwW rowW "p1") rowW.id rowW.userId "p1").1.postComments
      = cwW.postComments
    ∧ ((destroyComment (addCommentFanout cwW rowW "p1") rowW.id rowW.userId "p1").2 = true
        ↔ ¬∃ x ∈ cwW.postComments, x.userId = rowW.userId)
    ∧ (("p1" ∈
          (destroyComment (addCommentFanout cwW rowW "p1") rowW.id rowW.userId "p1").1.commentsTimeline)
        ↔ "p1" ∈ cwW.commentsTimeline)
    ∧ ((∃ x ∈ cwW.postComments, x.userId = rowW.userId) →
        (destroyComment (addCommentFanout cwW rowW "p1") rowW.id rowW.userId "p1").1.commentsTimeline
          = (addCommentFanout cwW rowW "p1").commentsTimeline) :=
  c4_comment_destroy_roundtrip cwW rowW "p1" (by simp [cwW]) (by simp [cwW])

/-- C5: a comment whose stored body is empty (the setter trims
whitespace-only bodies to empty) or whose `userId` or `postId` is absent or
empty fails `create` with the `"Invalid"` validation error, and the effect
trace is empty: no persistence write and no fan-out side effect occurred. -/
theorem c5_invalid_comment_create_is_local (ps : CommentParams) (now : Nat) (newId : String)
    (h : setBody ps.body = "" ∨ ps.userId = none ∨ ps.userId = some ""
      ∨ ps.postId = none ∨ ps.postId = some "") :
    (Comment.make ps).create now newId
      = { effects := [], result := Except.error "Invalid" } := by
  have hv : ({ Comment.make ps with createdAt := some now, updatedAt := some now} : Comment).validate
      = Except.error "Invalid" := by
    rcases h with h | h | h | h | h <;>
      simp [Comment.validate, Comment.make, truthyNonEmptyStr, h]
  simp [Comment.create, hv]

/-- Comment-parameter fixture for the C5 witness: whitespace-only body. -/
def psW : CommentParams :=
  { id := none, body := some "   ", userId := some "luna", postId := some "p1" }

/-- C5 witness: a whitespace-only body trims to empty, and `create` fails
with `"Invalid"` leaving an empty effect trace. -/
theorem c5_witness :
    setBody psW.body = ""
    ∧ (Comment.make psW).create 5 "c9"
        = { effects := [], result := Except.error "Invalid" } :=
  ⟨by decide, c5_invalid_comment_create_is_local psW 5 "c9" (Or.inl (by decide))⟩

/-- C7: the effective limit always lies in `[0, 120]` and the effective
offset is non-negative; a limit that fails to parse (including an absent
value), is negative, or exceeds 120 becomes 30; an offset that fails to
parse or is negative becomes 0; otherwise the parsed values pass through
unchanged. -/
theorem c7_limit_offset_clamping (viewer : Option ViewerUser) (q : Query)
    (dateParse : String → Option Int) (ds : String) :
    (0 ≤ (getCommonParams viewer q dateParse ds).limit
      ∧ (getCommonParams viewer q dateParse ds).limit ≤ 120
      ∧ 0 ≤ (getCommonParams viewer q dateParse ds).offset)
    ∧ (parseIntJS q.limit = none → (getCommonParams viewer q dateParse ds).limit = 30)
    ∧ (∀ n : Int, parseIntJS q.limit = some n →
        ((n < 0 ∨ 120 < n) → (getCommonParams viewer q dateParse ds).limit = 30)
        ∧ (0 ≤ n → n ≤ 120 → (getCommonParams viewer q dateParse ds).limit = n))
    ∧ (parseIntJS q.offset = none → (getCommonParams viewer q dateParse ds).offset = 0)
    ∧ (∀ n : Int, parseIntJS q.offset = some n →
        (n < 0 → (getCommonParams viewer q dateParse ds).offset = 0)
        ∧ (0 ≤ n → (getCommonParams viewer q dateParse ds).offset = n)) := by
  refine ⟨⟨?_, ?_, ?_⟩, ?_, ?_, ?_, ?_⟩
  · simp only [getCommonParams]
    split
    · norm_num
    · split_ifs <;> omega
  · simp only [getCommonParams]
    split
    · norm_num
    · split_ifs <;> omega
  · simp only [getCommonParams]
    split
    · norm_num
    · split_ifs <;> omega
  · intro hp
    simp [getCommonParams, hp]
  · intro n hn
    constructor
    · intro hc
      simp [getCommonParams, hn, hc]
    · intro h0 h120
      have hc : ¬(n < 0 ∨ 120 < n) := by omega
      simp [getCommonParams, hn, hc]
  · intro hp
    simp [getCommonParams, hp]
  · intro n hn
    constructor
    · intro hc
      simp [getCommonParams, hn, hc]
    · intro h0
      have hc : ¬n < 0 := by omega
      simp [getCommonParams, hn, hc]

/-- Date-parse fixture for the witnesses: nothing parses. -/
def dpW : String → Option Int := fun _ => none

/-- Query fixture for the witnesses: unparseable limit, negative offset,
upper-case with-my-posts flag, unknown homefeed mode, unparseable date. -/
def qW : Query :=
  { limit := some "abc", offset := some "-5", sort := none, withMyPosts := some "YES",
    homefeedMode := some "weird", createdBefore := some "notadate", createdAfter := none }

/-- C7 witness: an unparseable limit falls back to 30 and a negative offset
falls back to 0. -/
theorem c7_witness :
    parseIntJS qW.limit = none
    ∧ parseIntJS qW.offset = some (-5)
    ∧ (getCommonParams none qW dpW ORD_UPDATED).limit = 30
    ∧ (getCommonParams none qW dpW ORD_UPDATED).offset = 0 :=
  ⟨by decide, by decide,
   (c7_limit_offset_clamping none qW dpW ORD_UPDATED).2.1 (by decide),
   ((c7_limit_offset_clamping none qW dpW ORD_UPDATED).2.2.2.2 (-5) (by decide)).1
     (by decide)⟩

/-- C8: a `created-before` / `created-after` value is passed through the
date parser: an absent key yields an absent bound and a present key yields
exactly the parser's result, so an unparseable value (parser returns
`none`) is silently treated as an absent bound; `getCommonParams` is total,
so the request is never rejected. -/
theorem c8_invalid_date_bound_is_absent (viewer : Option ViewerUser) (q : Query)
    (dateParse : String → Option Int) (ds : String) :
    (q.createdBefore = none → (getCommonParams viewer q dateParse ds).createdBefore = none)
    ∧ (∀ s, q.createdBefore = some s →
        (getCommonParams viewer q dateParse ds).createdBefore = dateParse s)
    ∧ (q.createdAfter = none → (getCommonParams viewer q dateParse ds).createdAfter = none)
    ∧ (∀ s, q.createdAfter = some s →
        (getCommonParams viewer q dateParse ds).createdAfter = dateParse s) := by
  refine ⟨?_, ?_, ?_, ?_⟩
  · intro h
    simp [getCommonParams, h]
  · intro s h
    simp [getCommonParams, h]
  · intro h
    simp [getCommonParams, h]
  · intro s h
    simp [getCommonParams, h]

/-- C8 witness: an unparseable created-before bound is treated as absent. -/
theorem c8_witness :
    qW.createdBefore = some "notadate"
    ∧ dpW "notadate" = none
    ∧ (getCommonParams none qW dpW ORD_UPDATED).createdBefore = dpW "notadate" :=
  ⟨rfl, rfl,
   (c8_invalid_date_bound_is_absent none qW dpW ORD_UPDATED).2.1 "notadate" rfl⟩

/-- C9: an absent or unknown homefeed-mode value yields the classic mode,
the request is never rejected, and the effective mode is always one of the
three known modes. -/
theorem c9_unknown_homefeed_mode_is_classic (viewer : Option ViewerUser) (q : Query)
    (dateParse : String → Option Int) (ds : String) :
    (q.homefeedMode = none →
      (getCommonParams viewer q dateParse ds).homefeedMode = HOMEFEED_MODE_CLASSIC)
    ∧ (∀ m, q.homefeedMode = some m →
        m ∉ [HOMEFEED_MODE_FRIENDS_ONLY, HOMEFEED_MODE_CLASSIC,
          HOMEFEED_MODE_FRIENDS_ALL_ACTIVITY] →
        (getCommonParams viewer q dateParse ds).homefeedMode = HOMEFEED_MODE_CLASSIC)
    ∧ ((getCommonParams viewer q dateParse ds).homefeedMode = HOMEFEED_MODE_FRIENDS_ONLY
      ∨ (getCommonParams viewer q dateParse ds).homefeedMode = HOMEFEED_MODE_CLASSIC
      ∨ (getCommonParams viewer q dateParse ds).homefeedMode
          = HOMEFEED_MODE_FRIENDS_ALL_ACTIVITY) := by
  refine ⟨?_, ?_, ?_⟩
  · intro h
    simp [getCommonParams, h]
  · intro m hm hnot
    simp [getCommonParams, hm, hnot]
  · rcases hm : q.homefeedMode with _ | m
    · simp [getCommonParams, hm]
    · by_cases hmem : m ∈ [HOMEFEED_MODE_FRIENDS_ONLY, HOMEFEED_MODE_CLASSIC,
          HOMEFEED_MODE_FRIENDS_ALL_ACTIVITY]
      · have hcases := hmem
        simp only [List.mem_cons, List.mem_singleton, List.not_mem_nil, or_false] at hcases
        simp only [getCommonParams, hm, if_pos hmem]
        exact hcases
      · simp [getCommonParams, hm, hmem]

/-- C9 witness: the unknown mode value `weird` yields classic. -/
theorem c9_witness :
    qW.homefeedMode = some "weird"
    ∧ "weird" ∉ [HOMEFEED_MODE_FRIENDS_ONLY, HOMEFEED_MODE_CLASSIC,
        HOMEFEED_MODE_FRIENDS_ALL_ACTIVITY]
    ∧ (getCommonParams none qW dpW ORD_UPDATED).homefeedMode = HOMEFEED_MODE_CLASSIC :=
  ⟨rfl, by decide,
   (c9_unknown_homefeed_mode_is_classic none qW dpW ORD_UPDATED).2.1 "weird" rfl (by decide)⟩

/-- C10: the with-my-posts flag parses as true exactly for the values
`yes` / `true` / `1` / `on` case-insensitively; on any feed other than
MyDiscussions the flag is forced off and the whole read result is
independent of it; on MyDiscussions with the flag set, the viewer's id is
added to the author allow-list of the posts query. -/
theorem c10_withMyPosts_only_my_discussions (cfg : Config) (db : Db) (tl : Timeline)
    (v : Option String) (p : GTParams) (viewer : Option ViewerUser) (q : Query)
    (dateParse : String → Option Int) (ds : String) :
    ((getCommonParams viewer q dateParse ds).withMyPosts = true
      ↔ toLowerJS (q.withMyPosts.getD "") ∈ (["yes", "true", "1", "on"] : List String))
    ∧ (tl.name ≠ "MyDiscussions" →
        genericTimeline cfg db tl v { p with withMyPosts := true }
          = genericTimeline cfg db tl v { p with withMyPosts := false })
    ∧ (tl.name = "MyDiscussions" →
        v ∈ (gtResolve cfg db tl v
          (gtNormalize tl v { p with withMyPosts := true })).authorsIds) := by
  refine ⟨?_, ?_, ?_⟩
  · simp [getCommonParams]
  · intro h
    have hnorm : gtNormalize tl v { p with withMyPosts := true }
        = gtNormalize tl v { p with withMyPosts := false } := by
      simp [gtNormalize, h]
    simp only [genericTimeline]
    rw [hnorm]
  · intro h
    simp [gtResolve, gtNormalize, h]

/-- C10 witness: the upper-case flag value `YES` parses as true; a Posts
feed is unaffected by the flag; on MyDiscussions the viewer enters the
author allow-list. -/
theorem c10_witness :
    (getCommonParams none qW dpW ORD_UPDATED).withMyPosts = true
    ∧ (genericTimeline cfgW dbW tlLunaPosts (some "luna") { pW with withMyPosts := true }
        = genericTimeline cfgW dbW tlLunaPosts (some "luna") { pW with withMyPosts := false })
    ∧ some "luna" ∈ (gtResolve cfgW dbW
        { id := "tl-md-luna", intId := 5, name := "MyDiscussions", userId := "luna" }
        (some "luna")
        (gtNormalize
          { id := "tl-md-luna", intId := 5, name := "MyDiscussions", userId := "luna" }
          (some "luna") { pW with withMyPosts := true })).authorsIds :=
  ⟨(c10_withMyPosts_only_my_discussions cfgW dbW tlLunaPosts (some "luna") pW none qW dpW
      ORD_UPDATED).1.mpr (by decide),
   (c10_withMyPosts_only_my_discussions cfgW dbW tlLunaPosts (some "luna") pW none qW dpW
      ORD_UPDATED).2.1 (by decide),
   (c10_withMyPosts_only_my_discussions cfgW dbW
      { id := "tl-md-luna", intId := 5, name := "MyDiscussions", userId := "luna" }
      (some "luna") pW none qW dpW ORD_UPDATED).2.2 rfl⟩

end FreeFeed
